import Mathlib

/-!
Shallow embedding of the travel-2026 scraper subsystem
(scripts/scrapers/schema.py, cache.py, registry.py, base.py) and proofs
about its specified behaviour.

Conventions of the embedding:
* Python `str` is `String`, `int` is `Int`, `bool` is `Bool`,
  `Optional[T]` is `Option T`, `list` is `List`, and a `dict` whose keys
  are data is `List (key × value)` in insertion order (Python dicts are
  ordered).
* Serialized dictionaries are given one Lean structure per shape the
  serializer can emit; a key that the serializer may drop is an `Option`
  field (`none` = key absent).  The JSON key `"return"` (renamed from the
  dataclass field `return_`) is the structure field `ret`.
* Fallible code is `Except String` / `Option`; an exception caught in the
  source is a recovered `Option`/branch here.
* External collaborators are parameters: `datetime.fromisoformat` is a
  `parse : String → Option Int` argument (epoch seconds, `none` = raises),
  the browser is an oracle of outcomes, and the data-driven hotel-area
  table and baggage regexes are black-box functions, exactly the
  collaborators the spec excludes from the core.
-/

namespace Travel

/-- Python truthiness of a string: `bool(s)` is `True` iff `s` is non-empty. -/
def pyTruthyStr (s : String) : Bool := s ≠ ""

/-- Python `a or b` on strings: returns `a` when `a` is truthy, else `b`. -/
def pyOrStr (a b : String) : String := if pyTruthyStr a then a else b

/-- Substring test on character lists: true iff `pat` occurs inside `hay`.
`re.search(p, s)` for the registry's regex patterns, which are all literal
strings once the backslash escapes of dots are removed. -/
def hasSubstr : List Char → List Char → Bool
  | hay, pat =>
    if pat.isPrefixOf hay then true
    else
      match hay with
      | [] => false
      | _ :: t => hasSubstr t pat

/-- `re.search(pattern, url)` for a fully-literal pattern: substring containment. -/
def reSearch (pattern url : String) : Bool := hasSubstr url.data pattern.data

/-! ## schema.py: the canonical data model -/

/-- schema.py `FlightSegment`: a single flight leg. -/
structure FlightSegment where
  flight_number : String := ""
  airline : String := ""
  airline_code : String := ""
  departure_airport : String := ""
  departure_code : String := ""
  departure_time : String := ""
  arrival_airport : String := ""
  arrival_code : String := ""
  arrival_time : String := ""
  date : String := ""
deriving DecidableEq, Repr

/-- schema.py `FlightSegment.is_populated`:
`bool(self.flight_number and (self.departure_code or self.arrival_code))`,
transcribed with Python's short-circuit `and`/`or` on strings. -/
def FlightSegment.is_populated (s : FlightSegment) : Bool :=
  pyTruthyStr
    (if pyTruthyStr s.flight_number then pyOrStr s.departure_code s.arrival_code
     else s.flight_number)

/-- schema.py `FlightInfo`: outbound + return flight pair. -/
structure FlightInfo where
  outbound : FlightSegment := {}
  return_ : FlightSegment := {}
deriving DecidableEq, Repr

/-- schema.py `FlightInfo.is_populated`. -/
def FlightInfo.is_populated (f : FlightInfo) : Bool :=
  f.outbound.is_populated || f.return_.is_populated

/-- schema.py `HotelInfo`.  `asdict(HotelInfo)` keeps every field (with
nulls), so this structure is also its own serialized image. -/
structure HotelInfo where
  name : String := ""
  names : List String := []
  area : String := ""
  star_rating : Option Int := none
  access : List String := []
  amenities : List String := []
  room_type : String := ""
  bed_width_cm : Option Int := none
deriving DecidableEq, Repr

/-- schema.py `HotelInfo.is_populated`: `bool(self.name or self.names)`. -/
def HotelInfo.is_populated (h : HotelInfo) : Bool :=
  pyTruthyStr h.name || !h.names.isEmpty

/-- schema.py `PriceInfo`; also its own `asdict` image. -/
structure PriceInfo where
  per_person : Option Int := none
  total : Option Int := none
  currency : String := "TWD"
  deposit : Option Int := none
  seats_available : Option Int := none
  min_travelers : Option Int := none
deriving DecidableEq, Repr

/-- schema.py `DatePricing`. -/
structure DatePricing where
  date : String := ""
  price : Option Int := none
  availability : String := "unknown"
  seats_remaining : Option Int := none
  notes : String := ""
deriving DecidableEq, Repr

/-- schema.py `DatesInfo`; also its own `asdict` image. -/
structure DatesInfo where
  duration_days : Option Int := none
  duration_nights : Option Int := none
  departure_date : String := ""
  return_date : String := ""
  year : Option Int := none
  departure_month : Option Int := none
  departure_day : Option Int := none
deriving DecidableEq, Repr

/-- schema.py `ItineraryDay`. -/
structure ItineraryDay where
  day : Int := 0
  content : String := ""
  is_free : Bool := false
  is_guided : Bool := false
deriving DecidableEq, Repr

/-- base.py package links are dicts of strings (`url`, `code`, `title`). -/
abbrev PackageLink := List (String × String)

/-- schema.py `ScrapeResult`: the canonical scraper output. -/
structure ScrapeResult where
  source_id : String := ""
  url : String := ""
  scraped_at : String := ""
  title : String := ""
  package_type : String := "unknown"
  flight : FlightInfo := {}
  hotel : HotelInfo := {}
  price : PriceInfo := {}
  dates : DatesInfo := {}
  inclusions : List String := []
  date_pricing : List (String × DatePricing) := []
  itinerary : List ItineraryDay := []
  package_links : List PackageLink := []
  raw_text : String := ""
  extracted_elements : List (String × List String) := []
  success : Bool := true
  errors : List String := []
  warnings : List String := []
deriving DecidableEq, Repr

end Travel

/-! ## Claim C5 -/

namespace Travel

/-- C5: a `FlightSegment` is `is_populated` iff it has a non-empty
`flight_number` and at least one of `departure_code` / `arrival_code`
non-empty; for every other combination of field values it is not populated. -/
theorem flightSegment_is_populated_iff (s : FlightSegment) :
    s.is_populated = true ↔
      s.flight_number ≠ "" ∧ (s.departure_code ≠ "" ∨ s.arrival_code ≠ "") := by
  by_cases h1 : s.flight_number = "" <;>
    by_cases h2 : s.departure_code = "" <;>
      by_cases h3 : s.arrival_code = "" <;>
        simp [FlightSegment.is_populated, pyTruthyStr, pyOrStr, h1, h2, h3]

end Travel

/-! ## registry.py: URL detection and the parser registry -/

namespace Travel

/-- registry.py `_URL_PATTERNS`: the fixed ordered (pattern, source_id)
list.  Every regex in the source is a literal string once its escaped dots
are unescaped, so each pattern is kept here as that literal and
`re.search` is substring containment (`reSearch`). -/
def urlPatterns : List (String × String) :=
  [("besttour.com.tw", "besttour"),
   ("liontravel.com", "liontravel"),
   ("lifetour.com.tw", "lifetour"),
   ("settour.com.tw", "settour"),
   ("tigerairtw.com", "tigerair"),
   ("trip.com", "trip"),
   ("google.com/travel/flights", "google_flights"),
   ("agoda.com", "agoda"),
   ("eztravel.com.tw", "eztravel"),
   ("booking.com", "booking")]

/-- The `for pattern, source_id in _URL_PATTERNS` loop inside `detect_ota`:
return the id of the first matching pattern, else fall through to `None`. -/
def detectFrom : List (String × String) → String → Option String
  | [], _ => none
  | pair :: rest, url =>
    if reSearch pair.1 url then some pair.2 else detectFrom rest url

/-- registry.py `detect_ota`. -/
def detect_ota (url : String) : Option String := detectFrom urlPatterns url

/-- registry.py `get_available_parsers`: the hardcoded list of source ids. -/
def get_available_parsers : List String :=
  ["besttour", "liontravel", "lifetour", "settour", "tigerair", "trip",
   "google_flights", "agoda", "eztravel"]

/-- A parser object.  Its class determines `source_id` (each parser class
sets it to its own id); `instanceId` models Python object identity, so that
"the same memoized instance" is expressible. -/
structure ParserInstance where
  source_id : String
  instanceId : Nat
deriving DecidableEq, Repr

/-- registry.py `_create_parser`: the `if/elif` chain over source ids.  A
hit constructs a fresh parser object (`fresh` is the next unused object
identity); the final `else` raises `ValueError` with the hardcoded message. -/
def createParser (source_id : String) (fresh : Nat) :
    Except String (ParserInstance × Nat) :=
  if source_id = "besttour" then .ok (⟨"besttour", fresh⟩, fresh + 1)
  else if source_id = "liontravel" then .ok (⟨"liontravel", fresh⟩, fresh + 1)
  else if source_id = "lifetour" then .ok (⟨"lifetour", fresh⟩, fresh + 1)
  else if source_id = "settour" then .ok (⟨"settour", fresh⟩, fresh + 1)
  else if source_id = "tigerair" then .ok (⟨"tigerair", fresh⟩, fresh + 1)
  else if source_id = "trip" then .ok (⟨"trip", fresh⟩, fresh + 1)
  else if source_id = "google_flights" then .ok (⟨"google_flights", fresh⟩, fresh + 1)
  else if source_id = "agoda" then .ok (⟨"agoda", fresh⟩, fresh + 1)
  else if source_id = "eztravel" then .ok (⟨"eztravel", fresh⟩, fresh + 1)
  else
    .error ("No parser registered for source_id '" ++ source_id ++
      "'. Available: besttour, liontravel, lifetour, settour, tigerair, trip, google_flights, agoda, eztravel")

/-- registry.py `_parser_cache` plus the supply of unused object identities. -/
structure RegistryState where
  parserCache : List (String × ParserInstance) := []
  fresh : Nat := 0
deriving DecidableEq, Repr

/-- Dictionary lookup in `_parser_cache` (`source_id in _parser_cache`). -/
def lookupInstance : List (String × ParserInstance) → String → Option ParserInstance
  | [], _ => none
  | kv :: rest, sid => if kv.1 = sid then some kv.2 else lookupInstance rest sid

/-- registry.py `get_parser`: serve the memoized instance when present,
otherwise create one, memoize it and return it; `_create_parser`'s
`ValueError` propagates to the caller. -/
def getParser (source_id : String) (st : RegistryState) :
    Except String (ParserInstance × RegistryState) :=
  match lookupInstance st.parserCache source_id with
  | some p => .ok (p, st)
  | none =>
    match createParser source_id st.fresh with
    | .error e => .error e
    | .ok (p, fresh') => .ok (p, ⟨(source_id, p) :: st.parserCache, fresh'⟩)

/-- Helper: an unregistered id hits `_create_parser`'s `else` branch. -/
theorem createParser_not_available (source_id : String) (fresh : Nat)
    (h : source_id ∉ get_available_parsers) :
    createParser source_id fresh =
      .error ("No parser registered for source_id '" ++ source_id ++
        "'. Available: " ++ String.intercalate ", " get_available_parsers) := by
  simp only [get_available_parsers, List.mem_cons, List.not_mem_nil, or_false, not_or] at h
  obtain ⟨h1, h2, h3, h4, h5, h6, h7, h8, h9⟩ := h
  have hmsg : "'. Available: besttour, liontravel, lifetour, settour, tigerair, trip, google_flights, agoda, eztravel" =
      "'. Available: " ++ String.intercalate ", " get_available_parsers := by decide
  simp only [createParser, h1, h2, h3, h4, h5, h6, h7, h8, h9, if_false, ite_false]
  rw [hmsg]
  simp [String.append_assoc]

/-- Helper: a registered id is constructed without raising. -/
theorem createParser_ok_of_available (source_id : String) (fresh : Nat)
    (h : source_id ∈ get_available_parsers) :
    createParser source_id fresh = .ok (⟨source_id, fresh⟩, fresh + 1) := by
  simp only [get_available_parsers, List.mem_cons, List.not_mem_nil, or_false] at h
  rcases h with rfl | rfl | rfl | rfl | rfl | rfl | rfl | rfl | rfl <;> rfl

/-- Helper: `get_parser` succeeds on every registered id, from any state. -/
theorem getParser_ok_of_available (source_id : String) (st : RegistryState)
    (h : source_id ∈ get_available_parsers) :
    ∃ p st', getParser source_id st = .ok (p, st') := by
  unfold getParser
  cases hc : lookupInstance st.parserCache source_id with
  | some p => exact ⟨p, st, rfl⟩
  | none =>
    rw [createParser_ok_of_available source_id st.fresh h]
    exact ⟨⟨source_id, st.fresh⟩, _, rfl⟩

/-- C7: `get_parser` raises the unknown-source `ValueError` for every id
with no registered parser (whenever the memo cache has no entry for it,
which is the case in every execution since only created parsers are
memoized), and the raised message lists exactly the ids of
`get_available_parsers`; every id in `get_available_parsers` is served
without raising; and a repeated call with the same id returns the very
same memoized instance and leaves the registry unchanged. -/
theorem getParser_unknown_source_contract :
    (∀ source_id fresh, source_id ∉ get_available_parsers →
      createParser source_id fresh =
        .error ("No parser registered for source_id '" ++ source_id ++
          "'. Available: " ++ String.intercalate ", " get_available_parsers))
    ∧ (∀ source_id st, source_id ∉ get_available_parsers →
        lookupInstance st.parserCache source_id = none →
        getParser source_id st =
          .error ("No parser registered for source_id '" ++ source_id ++
            "'. Available: " ++ String.intercalate ", " get_available_parsers))
    ∧ (∀ source_id st, source_id ∈ get_available_parsers →
        ∃ p st', getParser source_id st = .ok (p, st'))
    ∧ (∀ source_id st p st', getParser source_id st = .ok (p, st') →
        getParser source_id st' = .ok (p, st')) := by
  refine ⟨createParser_not_available, ?_, getParser_ok_of_available, ?_⟩
  · intro source_id st h hc
    unfold getParser
    rw [hc, createParser_not_available source_id st.fresh h]
  · intro source_id st p st' h
    unfold getParser at h ⊢
    cases hc : lookupInstance st.parserCache source_id with
    | some q =>
      rw [hc] at h
      cases h
      rw [hc]
    | none =>
      rw [hc] at h
      cases hcr : createParser source_id st.fresh with
      | error e => rw [hcr] at h; cases h
      | ok pf =>
        rw [hcr] at h
        cases h
        simp [lookupInstance]

end Travel

namespace Travel

/-- Helper: `detectFrom` returns `some sid` iff the list splits as
`l₁ ++ p :: l₂` where `p` is the first matching pair and maps to `sid`. -/
theorem detectFrom_eq_some_iff (l : List (String × String)) (url sid : String) :
    detectFrom l url = some sid ↔
      ∃ l₁ p l₂, l = l₁ ++ p :: l₂ ∧ p.2 = sid ∧ reSearch p.1 url = true ∧
        ∀ q ∈ l₁, reSearch q.1 url = false := by
  induction l with
  | nil =>
    simp only [detectFrom, reduceCtorEq, false_iff, not_exists]
    rintro l₁ p l₂ ⟨h, -⟩
    exact List.cons_ne_nil p l₂ (List.append_eq_nil.mp h.symm).2
  | cons hd tl ih =>
    have hunf : detectFrom (hd :: tl) url =
        if reSearch hd.1 url then some hd.2 else detectFrom tl url := rfl
    by_cases hm : reSearch hd.1 url
    · rw [hunf, if_pos hm]
      constructor
      · intro h
        exact ⟨[], hd, tl, rfl, Option.some_inj.mp h, hm, by simp⟩
      · rintro ⟨l₁, p, l₂, heq, hp2, -, hall⟩
        cases l₁ with
        | nil =>
          rw [List.nil_append] at heq
          cases heq
          rw [hp2]
        | cons a t =>
          rw [List.cons_append] at heq
          injection heq with h1 _
          exact absurd hm (by rw [h1]; simp [hall a (List.mem_cons_self a t)])
    · have hmf : reSearch hd.1 url = false := by simpa using hm
      rw [hunf, if_neg hm, ih]
      constructor
      · rintro ⟨l₁, p, l₂, heq, hp2, hps, hall⟩
        refine ⟨hd :: l₁, p, l₂, by rw [heq, List.cons_append], hp2, hps, ?_⟩
        intro q hq
        rcases List.mem_cons.mp hq with rfl | hq
        · exact hmf
        · exact hall q hq
      · rintro ⟨l₁, p, l₂, heq, hp2, hps, hall⟩
        cases l₁ with
        | nil =>
          rw [List.nil_append] at heq
          cases heq
          exact absurd hps (by simp [hmf])
        | cons a t =>
          rw [List.cons_append] at heq
          injection heq with h1 h2
          exact ⟨t, p, l₂, h2, hp2, hps, fun q hq => hall q (List.mem_cons_of_mem a hq)⟩

/-- Helper: `detectFrom` returns `none` iff no pair of the list matches. -/
theorem detectFrom_eq_none_iff (l : List (String × String)) (url : String) :
    detectFrom l url = none ↔ ∀ q ∈ l, reSearch q.1 url = false := by
  induction l with
  | nil => simp [detectFrom]
  | cons hd tl ih =>
    by_cases hm : reSearch hd.1 url
    · simp [detectFrom, hm]
    · simp [detectFrom, hm, ih, Bool.not_eq_true _ ▸ (by simpa using hm : reSearch hd.1 url = false)]

/-- C8: `detect_ota(url)` returns the `source_id` of the first pattern of
the fixed ordered `_URL_PATTERNS` list matching the URL (first match wins),
and `None` when no pattern matches.  It is a total Lean function of the URL
and the pattern table, hence pure. -/
theorem detect_ota_first_match (url : String) :
    (∀ source_id, detect_ota url = some source_id ↔
      ∃ l₁ p l₂, urlPatterns = l₁ ++ p :: l₂ ∧ p.2 = source_id ∧
        reSearch p.1 url = true ∧ ∀ q ∈ l₁, reSearch q.1 url = false)
    ∧ (detect_ota url = none ↔ ∀ q ∈ urlPatterns, reSearch q.1 url = false) :=
  ⟨fun source_id => detectFrom_eq_some_iff urlPatterns url source_id,
   detectFrom_eq_none_iff urlPatterns url⟩

/-- Helper: whatever `detect_ota` returns came out of the pattern table. -/
theorem detectFrom_mem_snd {l : List (String × String)} {url sid : String}
    (h : detectFrom l url = some sid) : sid ∈ l.map Prod.snd := by
  induction l with
  | nil => simp [detectFrom] at h
  | cons hd tl ih =>
    by_cases hm : reSearch hd.1 url
    · simp only [detectFrom, hm, if_true, Option.some_inj] at h
      simp [← h]
    · simp only [detectFrom, hm, if_false] at h
      simp [ih h]

/-- C9 counterexample: `detect_ota` maps a booking.com URL to the source id
"booking", yet "booking" has no registered parser — it is missing from
`get_available_parsers` and `_create_parser` raises the unknown-source
`ValueError` for it. -/
theorem detect_ota_booking_unregistered :
    detect_ota "https://www.booking.com/hotel/jp/osaka-hinode.html" = some "booking"
    ∧ "booking" ∉ get_available_parsers
    ∧ createParser "booking" 0 =
        .error ("No parser registered for source_id 'booking'. Available: besttour, liontravel, lifetour, settour, tigerair, trip, google_flights, agoda, eztravel") :=
  ⟨by decide, by decide, rfl⟩

/-- C9 (amended): for every URL, if `detect_ota` returns a source id other
than "booking", that id has a registered parser: it is a member of
`get_available_parsers` and `get_parser` returns an instance without
raising from any registry state.  ("booking" is the one pattern-table entry
with no parser.) -/
theorem detect_ota_source_registered (url source_id : String)
    (h : detect_ota url = some source_id) (hb : source_id ≠ "booking") :
    source_id ∈ get_available_parsers ∧
      ∀ st, ∃ p st', getParser source_id st = .ok (p, st') := by
  have hmem : source_id ∈ urlPatterns.map Prod.snd := detectFrom_mem_snd h
  have havail : source_id ∈ get_available_parsers := by
    simp only [urlPatterns, List.map_cons, List.map_nil, List.mem_cons,
      List.not_mem_nil, or_false] at hmem
    rcases hmem with rfl | rfl | rfl | rfl | rfl | rfl | rfl | rfl | rfl | rfl
    all_goals first
      | exact absurd rfl hb
      | decide
  exact ⟨havail, fun st => getParser_ok_of_available source_id st havail⟩

/-- C9 witness: the amended theorem applied to a concrete trip.com URL. -/
theorem detect_ota_source_registered_witness :
    "trip" ∈ get_available_parsers ∧
      ∀ st, ∃ p st', getParser "trip" st = .ok (p, st') :=
  detect_ota_source_registered "https://www.trip.com/flights/taipei-to-osaka/"
    "trip" (by decide) (by decide)

end Travel

/-! ## schema.py: serialization (`to_dict` / `from_dict`, current shape) -/

namespace Travel

/-- Image of `FlightInfo.to_dict`: both segment dicts always present
(`asdict` keeps every key); the field `ret` is the JSON key "return",
renamed from the dataclass field `return_`. -/
structure FlightDict where
  outbound : FlightSegment
  ret : FlightSegment
deriving DecidableEq, Repr

/-- schema.py `FlightInfo.to_dict`: `asdict`, then pop `return_` into
the "return" key. -/
def FlightInfo.to_dict (f : FlightInfo) : FlightDict :=
  { outbound := f.outbound, ret := f.return_ }

/-- schema.py `FlightInfo.from_dict` on a serializer-produced dict: the
"return" key is present (so `data.get("return_")` is not consulted) and
every stored key is a dataclass field, so the source's key filtering is
the identity on this shape. -/
def FlightInfo.from_dict (d : FlightDict) : FlightInfo :=
  { outbound := d.outbound, return_ := d.ret }

/-- One `date_pricing` value as `ScrapeResult.to_dict` emits it: `asdict`
of a `DatePricing` with every key whose value is `None` or `""` dropped
(`{kk: vv for kk, vv in v.items() if vv is not None and vv != ""}`). -/
structure CurrentDPDict where
  date : Option String
  price : Option Int
  availability : Option String
  seats_remaining : Option Int
  notes : Option String
deriving DecidableEq, Repr

/-- The `to_dict` sparsification of one `DatePricing`: string keys survive
iff non-empty, `Option Int` keys iff not `None` (an `Int` is never `""`). -/
def DatePricing.toCurrentDict (dp : DatePricing) : CurrentDPDict :=
  { date := if dp.date = "" then none else some dp.date,
    price := dp.price,
    availability := if dp.availability = "" then none else some dp.availability,
    seats_remaining := dp.seats_remaining,
    notes := if dp.notes = "" then none else some dp.notes }

/-- schema.py `from_dict`'s reconstruction of one `date_pricing` entry:
`date` is taken from the mapping key `k`, never from the stored dict;
defaults are `availability="unknown"` and `notes=""`. -/
def DatePricing.fromEntry (k : String) (v : CurrentDPDict) : DatePricing :=
  { date := k,
    price := v.price,
    availability := v.availability.getD "unknown",
    seats_remaining := v.seats_remaining,
    notes := v.notes.getD "" }

/-- One itinerary day as `ScrapeResult.to_dict` emits it. -/
structure ItinDayDict where
  day : Option Int
  content : Option String
  is_free : Option Bool
  is_guided : Option Bool
deriving DecidableEq, Repr

/-- `to_dict`'s itinerary element: the full `asdict` when `is_free` or
`is_guided` is set; otherwise every key whose value is `None`, `""`, `0`
or `False` is dropped, so `day` survives iff non-zero, `content` iff
non-empty, and the two flags (being `False`, which equals `0`) are
dropped. -/
def ItineraryDay.toDict (d : ItineraryDay) : ItinDayDict :=
  if !d.is_free && !d.is_guided then
    { day := if d.day = 0 then none else some d.day,
      content := if d.content = "" then none else some d.content,
      is_free := none,
      is_guided := none }
  else
    { day := some d.day, content := some d.content,
      is_free := some d.is_free, is_guided := some d.is_guided }

/-- schema.py `from_dict`'s itinerary element reconstruction
(`d.get("day", 0)`, `d.get("content", "")`, `d.get("is_free", False)`,
`d.get("is_guided", False)`). -/
def ItineraryDay.fromDict (d : ItinDayDict) : ItineraryDay :=
  { day := d.day.getD 0, content := d.content.getD "",
    is_free := d.is_free.getD false, is_guided := d.is_guided.getD false }

/-- Image of `ScrapeResult.to_dict` — the current serialized shape, which
is also exactly what the cache persists.  `asdict` keeps every top-level
key (sub-dicts with their `None`s); only `date_pricing` values and
`itinerary` days are sparsified, and `flight` gets the return rename. -/
structure CurrentDict where
  source_id : String
  url : String
  scraped_at : String
  title : String
  package_type : String
  flight : FlightDict
  hotel : HotelInfo
  price : PriceInfo
  dates : DatesInfo
  inclusions : List String
  date_pricing : List (String × CurrentDPDict)
  itinerary : List ItinDayDict
  package_links : List PackageLink
  raw_text : String
  extracted_elements : List (String × List String)
  success : Bool
  errors : List String
  warnings : List String
deriving DecidableEq, Repr

/-- schema.py `ScrapeResult.to_dict`. -/
def ScrapeResult.to_dict (r : ScrapeResult) : CurrentDict :=
  { source_id := r.source_id,
    url := r.url,
    scraped_at := r.scraped_at,
    title := r.title,
    package_type := r.package_type,
    flight := r.flight.to_dict,
    hotel := r.hotel,
    price := r.price,
    dates := r.dates,
    inclusions := r.inclusions,
    date_pricing := r.date_pricing.map (fun kv => (kv.1, kv.2.toCurrentDict)),
    itinerary := r.itinerary.map ItineraryDay.toDict,
    package_links := r.package_links,
    raw_text := r.raw_text,
    extracted_elements := r.extracted_elements,
    success := r.success,
    errors := r.errors,
    warnings := r.warnings }

/-- schema.py `ScrapeResult.from_dict` applied to a current-shape dict:
`data.get("extracted", {})` is empty, so `use_legacy` is false and every
structured field is read from the top level.  The `if flight_data:`,
`if hotel_data:`, `if price_data:` and `if dates_data:` guards always hold
on this shape (those sub-dicts always carry keys); the `if dp_data:` and
`if itin_data:` guards are the emptiness tests kept here. -/
def ScrapeResult.fromCurrentDict (d : CurrentDict) : ScrapeResult :=
  { source_id := d.source_id,
    package_type := d.package_type,
    url := d.url,
    scraped_at := d.scraped_at,
    title := d.title,
    raw_text := d.raw_text,
    extracted_elements := d.extracted_elements,
    package_links := d.package_links,
    errors := d.errors,
    warnings := d.warnings,
    success := d.success,
    flight := FlightInfo.from_dict d.flight,
    hotel := { name := d.hotel.name, names := d.hotel.names,
               area := d.hotel.area, star_rating := d.hotel.star_rating,
               access := d.hotel.access, amenities := d.hotel.amenities,
               room_type := d.hotel.room_type, bed_width_cm := d.hotel.bed_width_cm },
    price := { per_person := d.price.per_person, total := d.price.total,
               currency := d.price.currency, deposit := d.price.deposit,
               seats_available := d.price.seats_available,
               min_travelers := d.price.min_travelers },
    dates := { duration_days := d.dates.duration_days,
               duration_nights := d.dates.duration_nights,
               departure_date := d.dates.departure_date,
               return_date := d.dates.return_date,
               year := d.dates.year,
               departure_month := d.dates.departure_month,
               departure_day := d.dates.departure_day },
    inclusions := d.inclusions,
    date_pricing :=
      if d.date_pricing.isEmpty then []
      else d.date_pricing.map (fun kv => (kv.1, DatePricing.fromEntry kv.1 kv.2)),
    itinerary :=
      if d.itinerary.isEmpty then []
      else d.itinerary.map ItineraryDay.fromDict }

/-- Helper: one itinerary day round-trips through the current shape. -/
theorem itinDay_roundtrip (d : ItineraryDay) :
    ItineraryDay.fromDict d.toDict = d := by
  cases d with
  | mk day content f g =>
    by_cases hf : f <;> by_cases hg : g <;>
      by_cases hd0 : day = 0 <;> by_cases hc : content = "" <;>
        simp [ItineraryDay.toDict, ItineraryDay.fromDict, hf, hg, hd0, hc]

/-- Helper: one `date_pricing` entry round-trips through the current shape
when its stored date equals its mapping key and its availability is not
the empty string. -/
theorem dpEntry_roundtrip (k : String) (dp : DatePricing)
    (hd : dp.date = k) (ha : dp.availability ≠ "") :
    DatePricing.fromEntry k dp.toCurrentDict = dp := by
  cases dp with
  | mk date price avail seats notes =>
    simp only at hd ha
    by_cases hn : notes = "" <;>
      simp [DatePricing.toCurrentDict, DatePricing.fromEntry, hd, ha, hn]

/-- Helper: the itinerary list round-trips (with `from_dict`'s emptiness
guard). -/
theorem itinMap_roundtrip (l : List ItineraryDay) :
    (l.map ItineraryDay.toDict).map ItineraryDay.fromDict = l := by
  induction l with
  | nil => rfl
  | cons hd tl ih => simp only [List.map_cons, itinDay_roundtrip, ih]

/-- Helper: the itinerary list round-trips (with `from_dict`'s emptiness
guard). -/
theorem itinList_roundtrip (l : List ItineraryDay) :
    (if (l.map ItineraryDay.toDict).isEmpty then []
     else (l.map ItineraryDay.toDict).map ItineraryDay.fromDict) = l := by
  cases l with
  | nil => rfl
  | cons hd tl =>
    simp only [List.map_cons, List.isEmpty_cons, if_neg Bool.false_ne_true]
    exact itinMap_roundtrip (hd :: tl)

/-- Helper: the `date_pricing` association list round-trips under the
per-entry conditions. -/
theorem dpList_roundtrip (l : List (String × DatePricing))
    (h : ∀ p ∈ l, (p.2).date = p.1 ∧ (p.2).availability ≠ "") :
    (if (l.map (fun kv => (kv.1, kv.2.toCurrentDict))).isEmpty then []
     else (l.map (fun kv => (kv.1, kv.2.toCurrentDict))).map
       (fun kv => (kv.1, DatePricing.fromEntry kv.1 kv.2))) = l := by
  cases l with
  | nil => rfl
  | cons hd tl =>
    simp only [List.map_cons, List.isEmpty_cons, if_neg Bool.false_ne_true]
    have : ∀ (m : List (String × DatePricing)),
        (∀ p ∈ m, (p.2).date = p.1 ∧ (p.2).availability ≠ "") →
        (m.map (fun kv => (kv.1, kv.2.toCurrentDict))).map
          (fun kv => (kv.1, DatePricing.fromEntry kv.1 kv.2)) = m := by
      intro m hm
      induction m with
      | nil => rfl
      | cons a t ih =>
        have ha := hm a (List.mem_cons_self a t)
        simp only [List.map_cons, List.cons.injEq]
        refine ⟨?_, ih (fun p hp => hm p (List.mem_cons_of_mem a hp))⟩
        have := dpEntry_roundtrip a.1 a.2 ha.1 ha.2
        simp [this]
    have hall := this (hd :: tl) h
    simpa using hall

/-- Helper: `from_dict ∘ to_dict` is the identity whenever every
`date_pricing` entry stores its own key as `date` and a non-empty
availability (the code rebuilds `date` from the key and turns an empty
availability into "unknown"). -/
theorem fromCurrentDict_to_dict (r : ScrapeResult)
    (hdp : ∀ p ∈ r.date_pricing, (p.2).date = p.1 ∧ (p.2).availability ≠ "") :
    ScrapeResult.fromCurrentDict r.to_dict = r := by
  unfold ScrapeResult.fromCurrentDict ScrapeResult.to_dict
  simp only [FlightInfo.from_dict, FlightInfo.to_dict]
  have hdpr := dpList_roundtrip r.date_pricing hdp
  have hitr := itinList_roundtrip r.itinerary
  cases r with
  | mk sid url sa title pt fl ho pr da inc dp itin pl rt ee suc er wa =>
    simp only at hdpr hitr ⊢
    rw [hdpr, hitr]

end Travel

/-! ## cache.py: the file-based result cache -/

namespace Travel

/-- Python tuple order on `kwargs.items()` pairs (keys of one kwargs dict
are unique, so the value component only breaks impossible ties). -/
def extraLe (a b : String × String) : Bool :=
  if a.1 = b.1 then decide (a.2 ≤ b.2) else decide (a.1 < b.1)

/-- Stable insertion step for `sorted(kwargs.items())`. -/
def insertExtra (x : String × String) :
    List (String × String) → List (String × String)
  | [] => [x]
  | y :: ys => if extraLe x y then x :: y :: ys else y :: insertExtra x ys

/-- `sorted(kwargs.items())` as a stable insertion sort. -/
def sortExtras : List (String × String) → List (String × String)
  | [] => []
  | x :: xs => insertExtra x (sortExtras xs)

/-- cache.py `_cache_key`: `"|".join([source_id, url] + [f"k=v" for sorted
kwargs])`, then `sha256(key_str)[:16]`.  The truncated hash of the external
`hashlib` is modeled by its preimage string: equal key strings collide in
the real code too (identical digests), and distinct preimages are taken as
digest-distinct. -/
def cacheKeyStr (source_id url : String) (extras : List (String × String)) : String :=
  String.intercalate "|"
    ([source_id, url] ++
      (if extras.isEmpty then []
       else (sortExtras extras).map (fun kv => kv.1 ++ "=" ++ kv.2)))

/-- The cache directory: file name ↦ stored current-shape record.  Every
file the cache writes is named cache key + ".json", and the only
directory operations are exact-name open/unlink and the glob `*.json`
(which matches every such file), so entries are keyed here by the cache
key itself. -/
abbrev CacheFs := List (String × CurrentDict)

/-- Exact-name read of a cache file (`cache_path.exists()` + `json.load`). -/
def fsFind : CacheFs → String → Option CurrentDict
  | [], _ => none
  | kv :: rest, p => if kv.1 = p then some kv.2 else fsFind rest p

/-- `cache_path.unlink()`: remove the file with that exact name. -/
def fsErase (fs : CacheFs) (p : String) : CacheFs :=
  fs.filter (fun kv => kv.1 != p)

/-- `open(cache_path, "w")`: write the file, replacing any previous one. -/
def fsWrite (fs : CacheFs) (p : String) (v : CurrentDict) : CacheFs :=
  (p, v) :: fsErase fs p

/-- cache.py `_age_str`: human-readable age.  `int()` truncates toward
zero, which is `Int.tdiv`; `hours < 1` on the float quotient agrees with it
on the truncated quotient, and `int(hours / 24)` equals the composed
truncation.  A `fromisoformat` failure (`parse` = `none`) is caught and
reported as "unknown". -/
def ageStr (parse : String → Option Int) (now : Int) (scraped_at : String) : String :=
  match parse scraped_at with
  | none => "unknown"
  | some t =>
    let secs : Int := now - t
    let hours : Int := Int.tdiv secs 3600
    if hours < 1 then toString (Int.tdiv secs 60) ++ "m"
    else if hours < 24 then toString hours ++ "h"
    else toString (Int.tdiv hours 24) ++ "d"

/-- cache.py `ScrapeCache.get`: exact-name read; a missing file is a miss;
an empty `scraped_at` skips the expiry check; an unparsable `scraped_at`
raises inside the `try` and is caught as a miss; an expired entry is a
miss (and is not deleted — this function only reads `fs`); otherwise the
record is deserialized and one cache-age warning is appended. -/
def cacheGet (fs : CacheFs) (parse : String → Option Int) (now ttl : Int)
    (source_id url : String) (extras : List (String × String)) : Option ScrapeResult :=
  match fsFind fs (cacheKeyStr source_id url extras) with
  | none => none
  | some data =>
    if data.scraped_at ≠ "" then
      match parse data.scraped_at with
      | none => none
      | some t =>
        if now - t > ttl then none
        else
          let result := ScrapeResult.fromCurrentDict data
          some { result with warnings := result.warnings ++
            ["Loaded from cache (age: " ++ ageStr parse now data.scraped_at ++ ")"] }
    else
      let result := ScrapeResult.fromCurrentDict data
      some { result with warnings := result.warnings ++
        ["Loaded from cache (age: " ++ ageStr parse now data.scraped_at ++ ")"] }

/-- cache.py `ScrapeCache.set`: write `result.to_dict()` under the key of
`(result.source_id, result.url, kwargs)`. -/
def cacheSet (fs : CacheFs) (r : ScrapeResult) (extras : List (String × String)) : CacheFs :=
  fsWrite fs (cacheKeyStr r.source_id r.url extras) r.to_dict

/-- cache.py `ScrapeCache.invalidate`: unlink the one file of that key
(the `exists()` test only guards the unlink). -/
def cacheInvalidate (fs : CacheFs) (source_id url : String)
    (extras : List (String × String)) : CacheFs :=
  fsErase fs (cacheKeyStr source_id url extras)

/-- cache.py `ScrapeCache.clear`: the `if source_id:` branch is a `pass`
(per-source clearing is not implemented), after which the glob loop
unlinks every `*.json` file — that is, every cache entry. -/
def cacheClear (source_id : Option String) (fs : CacheFs) : CacheFs :=
  []

/-- Helper: after erasing a key, an exact-name read of it misses. -/
theorem fsFind_erase_self (fs : CacheFs) (p : String) :
    fsFind (fsErase fs p) p = none := by
  induction fs with
  | nil => rfl
  | cons kv rest ih =>
    by_cases h : kv.1 = p
    · simp [fsErase, List.filter_cons, h] at ih ⊢
      exact ih
    · simp only [fsErase, List.filter_cons, bne_iff_ne, ne_eq, h,
        not_false_eq_true, if_true, fsFind, if_neg h]
      simpa [fsErase] using ih

/-- Helper: erasing one key leaves reads of any other key unchanged. -/
theorem fsFind_erase_ne (fs : CacheFs) (p q : String) (h : q ≠ p) :
    fsFind (fsErase fs p) q = fsFind fs q := by
  induction fs with
  | nil => rfl
  | cons kv rest ih =>
    by_cases hk : kv.1 = p
    · have hkq : kv.1 ≠ q := by rw [hk]; exact fun e => h e.symm
      simp only [fsErase, List.filter_cons, hk, bne_self_eq_false, if_neg Bool.false_ne_true]
      rw [show fsFind (kv :: rest) q = fsFind rest q from by simp [fsFind, hkq]]
      simpa [fsErase] using ih
    · simp only [fsErase, List.filter_cons, bne_iff_ne, ne_eq, hk,
        not_false_eq_true, if_true]
      by_cases hq : kv.1 = q
      · simp [fsFind, hq]
      · simp only [fsFind, if_neg hq]
        simpa [fsErase] using ih

end Travel

namespace Travel

/-- C2 (amended): `set` followed by `get` with the identical
(source_id, url, extras) triple, within the TTL window (or with an empty
`scraped_at`, which skips the expiry check), returns the original result
with exactly one cache-age provenance warning appended — with its
structured fields equal to the original's provided every `date_pricing`
entry stores its key as its `date` and a non-empty `availability`
(deserialization rebuilds `date` from the mapping key and turns an empty
availability into "unknown").  A `get` whose joined key string differs
from the written one is untouched by the `set`, and every `get` against an
empty cache directory returns `None`.  (As stated the claim fails: see the
counterexample for the two violations these provisos remove.) -/
theorem cache_get_after_set (fs : CacheFs) (r : ScrapeResult)
    (extras : List (String × String)) (parse : String → Option Int) (now ttl : Int)
    (hdp : ∀ p ∈ r.date_pricing, (p.2).date = p.1 ∧ (p.2).availability ≠ "")
    (httl : r.scraped_at = "" ∨ ∃ t, parse r.scraped_at = some t ∧ now - t ≤ ttl) :
    cacheGet (cacheSet fs r extras) parse now ttl r.source_id r.url extras =
      some { r with warnings := r.warnings ++
        ["Loaded from cache (age: " ++ ageStr parse now r.scraped_at ++ ")"] }
    ∧ (∀ sid url2 extras2,
        cacheKeyStr sid url2 extras2 ≠ cacheKeyStr r.source_id r.url extras →
        cacheGet (cacheSet fs r extras) parse now ttl sid url2 extras2 =
          cacheGet fs parse now ttl sid url2 extras2)
    ∧ (∀ sid url2 extras2, cacheGet [] parse now ttl sid url2 extras2 = none) := by
  have hkey : fsFind (cacheSet fs r extras) (cacheKeyStr r.source_id r.url extras) =
      some r.to_dict := by
    simp [cacheSet, fsWrite, fsFind]
  have hround := fromCurrentDict_to_dict r hdp
  have hsa : (r.to_dict).scraped_at = r.scraped_at := rfl
  refine ⟨?_, ?_, ?_⟩
  · rcases httl with h0 | ⟨t, hp, hle⟩
    · simp [cacheGet, hkey, hsa, h0, hround]
    · have hgt : ¬ now - t > ttl := not_lt.mpr hle
      by_cases h0 : r.scraped_at = ""
      · simp [cacheGet, hkey, hsa, h0, hround]
      · simp [cacheGet, hkey, hsa, h0, hp, hgt, hround]
  · intro sid url2 extras2 hne
    have hfind : fsFind (cacheSet fs r extras) (cacheKeyStr sid url2 extras2) =
        fsFind fs (cacheKeyStr sid url2 extras2) := by
      have hne' : cacheKeyStr r.source_id r.url extras ≠ cacheKeyStr sid url2 extras2 :=
        fun e => hne e.symm
      simp only [cacheSet, fsWrite, fsFind, if_neg hne']
      exact fsFind_erase_ne fs _ _ hne
    simp only [cacheGet, hfind]
  · intro sid url2 extras2
    rfl

/-- C2 witness: the amended theorem applied to the default (empty)
`ScrapeResult`, whose empty `scraped_at` makes the entry a permanent hit. -/
theorem cache_get_after_set_witness :
    cacheGet (cacheSet [] ({} : ScrapeResult) []) (fun _ => none) 0 86400 "" "" [] =
      some { ({} : ScrapeResult) with warnings := ["Loaded from cache (age: unknown)"] }
    ∧ (∀ sid url2 extras2,
        cacheKeyStr sid url2 extras2 ≠ cacheKeyStr "" "" [] →
        cacheGet (cacheSet [] ({} : ScrapeResult) []) (fun _ => none) 0 86400 sid url2 extras2 =
          cacheGet [] (fun _ => none) 0 86400 sid url2 extras2)
    ∧ (∀ sid url2 extras2, cacheGet [] (fun _ => none) 0 86400 sid url2 extras2 = none) :=
  cache_get_after_set [] {} [] (fun _ => none) 0 86400 (by simp) (Or.inl rfl)

/-- A result whose (source_id, url) = ("a", "b|c") joins to the cache key
string "a|b|c" — the same string as ("a|b", "c"). -/
def collideResult : ScrapeResult := { source_id := "a", url := "b|c" }

/-- A result whose one `date_pricing` entry stores a `date` different from
its mapping key and an empty `availability`. -/
def mismatchResult : ScrapeResult :=
  { source_id := "s", url := "u",
    date_pricing := [("2026-02-13",
      { date := "2026-02-14", price := some 29900, availability := "" })] }

/-- C2 counterexample: (i) the key ("a|b", "c", no extras) was never passed
to `set`, yet after `set` of a result keyed ("a", "b|c") — the same joined
key string, hence the same truncated hash — `get` returns a result instead
of `None`; (ii) after `set` then `get` of the identical key, the returned
`date_pricing` differs from the original's (the stored date is replaced by
the mapping key, the empty availability by "unknown"). -/
theorem cache_get_after_set_counterexample :
    cacheGet (cacheSet [] collideResult []) (fun _ => none) 0 86400 "a|b" "c" [] ≠ none
    ∧ (cacheGet (cacheSet [] mismatchResult []) (fun _ => none) 0 86400 "s" "u" []).map
        ScrapeResult.date_pricing ≠ some mismatchResult.date_pricing :=
  ⟨by decide, by decide⟩

/-- C3: an entry whose parsed `scraped_at` satisfies `now - scraped_at >
ttl` is a miss: `get` returns `None` although the file is still on disk
(`get` only reads the directory — deletion of the entry is what
`invalidate` of its key, or `clear`, does). -/
theorem cache_expired_entry_is_miss (fs : CacheFs) (parse : String → Option Int)
    (now ttl : Int) (source_id url : String) (extras : List (String × String))
    (data : CurrentDict) (t : Int)
    (hfind : fsFind fs (cacheKeyStr source_id url extras) = some data)
    (hsa : data.scraped_at ≠ "")
    (hparse : parse data.scraped_at = some t)
    (hexp : now - t > ttl) :
    cacheGet fs parse now ttl source_id url extras = none
    ∧ fsFind fs (cacheKeyStr source_id url extras) = some data
    ∧ fsFind (cacheInvalidate fs source_id url extras)
        (cacheKeyStr source_id url extras) = none
    ∧ fsFind (cacheClear none fs) (cacheKeyStr source_id url extras) = none := by
  refine ⟨?_, hfind, fsFind_erase_self fs _, rfl⟩
  simp [cacheGet, hfind, hsa, hparse, hexp]

/-- Expired-entry scenario: a result scraped at epoch second 0. -/
def expiredResult : ScrapeResult :=
  { source_id := "k", url := "u", scraped_at := "2026-01-01T00:00:00" }

/-- The cache directory holding only the expired entry's file. -/
def expiredFs : CacheFs := [(cacheKeyStr "k" "u" [], expiredResult.to_dict)]

/-- A concrete `fromisoformat`: the one timestamp of the scenario parses
to epoch second 0. -/
def expiredParse : String → Option Int :=
  fun s => if s = "2026-01-01T00:00:00" then some 0 else none

/-- C3 witness: the theorem applied to the expired-entry scenario at
`now` = 1000000 s and the default TTL of 24 h = 86400 s. -/
theorem cache_expired_entry_is_miss_witness :
    cacheGet expiredFs expiredParse 1000000 86400 "k" "u" [] = none
    ∧ fsFind expiredFs (cacheKeyStr "k" "u" []) = some expiredResult.to_dict
    ∧ fsFind (cacheInvalidate expiredFs "k" "u" []) (cacheKeyStr "k" "u" []) = none
    ∧ fsFind (cacheClear none expiredFs) (cacheKeyStr "k" "u" []) = none :=
  cache_expired_entry_is_miss expiredFs expiredParse 1000000 86400 "k" "u" []
    expiredResult.to_dict 0 (by decide) (by decide) (by decide) (by decide)

/-- C10: `clear(source_id)` deletes every cache entry file whatever its
argument (the per-source branch of the source is a `pass`), and afterwards
`get` misses for every key. -/
theorem cache_clear_ignores_source_filter (source_id : Option String) (fs : CacheFs)
    (parse : String → Option Int) (now ttl : Int) (sid url : String)
    (extras : List (String × String)) :
    cacheClear source_id fs = cacheClear none fs
    ∧ (cacheClear source_id fs).isEmpty = true
    ∧ cacheGet (cacheClear source_id fs) parse now ttl sid url extras = none :=
  ⟨rfl, rfl, rfl⟩

end Travel

/-! ## schema.py: the legacy serialization shape (`to_legacy_dict`) -/

namespace Travel

/-- One `date_pricing` value as `to_legacy_dict` emits it: keys whose
value is `None` or `""` dropped, and the `date` key always excluded
(`kk != "date"`). -/
structure LegacyDPDict where
  price : Option Int
  availability : Option String
  seats_remaining : Option Int
  notes : Option String
deriving DecidableEq, Repr

/-- The `to_legacy_dict` sparsification of one `DatePricing`. -/
def DatePricing.toLegacyDict (dp : DatePricing) : LegacyDPDict :=
  { price := dp.price,
    availability := if dp.availability = "" then none else some dp.availability,
    seats_remaining := dp.seats_remaining,
    notes := if dp.notes = "" then none else some dp.notes }

/-- `from_dict`'s reconstruction of one legacy `date_pricing` entry — the
same code path as the current shape: `date` comes from the mapping key. -/
def DatePricing.fromLegacyEntry (k : String) (v : LegacyDPDict) : DatePricing :=
  { date := k,
    price := v.price,
    availability := v.availability.getD "unknown",
    seats_remaining := v.seats_remaining,
    notes := v.notes.getD "" }

/-- The `extracted` wrapper of the legacy shape.  The price and dates
dicts are `{k: v for v is not None}` sparsifications whose key-presence
the `Option` fields of `PriceInfo` / `DatesInfo` already encode, so those
two reuse the schema structures; `itinerary` is a key only present when
the itinerary is non-empty (each day a full `asdict`). -/
structure LegacyExtracted where
  flight : FlightDict
  hotel : HotelInfo
  price : PriceInfo
  dates : DatesInfo
  inclusions : List String
  date_pricing : List (String × LegacyDPDict)
  itinerary : Option (List ItineraryDay)
deriving DecidableEq, Repr

/-- Image of `ScrapeResult.to_legacy_dict`: provenance fields at top
level, structured data under `extracted`, `package_links` a key only
present when non-empty.  `errors`, `warnings` and `success` are not part
of this shape. -/
structure LegacyDict where
  source_id : String
  package_type : String
  url : String
  scraped_at : String
  title : String
  raw_text : String
  extracted : LegacyExtracted
  extracted_elements : List (String × List String)
  package_links : Option (List PackageLink)
deriving DecidableEq, Repr

/-- schema.py `ScrapeResult.to_legacy_dict`. -/
def ScrapeResult.to_legacy_dict (r : ScrapeResult) : LegacyDict :=
  { source_id := r.source_id,
    package_type := r.package_type,
    url := r.url,
    scraped_at := r.scraped_at,
    title := r.title,
    raw_text := r.raw_text,
    extracted :=
      { flight := r.flight.to_dict,
        hotel := r.hotel,
        price := r.price,
        dates := r.dates,
        inclusions := r.inclusions,
        date_pricing := r.date_pricing.map (fun kv => (kv.1, kv.2.toLegacyDict)),
        itinerary := if r.itinerary.isEmpty then none else some r.itinerary },
    extracted_elements := r.extracted_elements,
    package_links := if r.package_links.isEmpty then none else some r.package_links }

/-- schema.py `ScrapeResult.from_dict` applied to a legacy-shape dict:
`data.get("extracted", {})` is non-empty (the wrapper always carries its
flight key), so `use_legacy` is true and structured data is read from
`extracted`, while `errors`/`warnings`/`success` — absent from this
shape — get their defaults.  The truthiness guards on flight, hotel,
price and dates always hold on this shape (those sub-dicts always carry
keys — price its `currency`, dates its two date strings); the
`if dp_data:` and `if itin_data:` guards are the emptiness tests kept
here. -/
def ScrapeResult.fromLegacyDict (d : LegacyDict) : ScrapeResult :=
  { source_id := d.source_id,
    package_type := d.package_type,
    url := d.url,
    scraped_at := d.scraped_at,
    title := d.title,
    raw_text := d.raw_text,
    extracted_elements := d.extracted_elements,
    package_links := d.package_links.getD [],
    errors := [],
    warnings := [],
    success := true,
    flight := FlightInfo.from_dict d.extracted.flight,
    hotel := { name := d.extracted.hotel.name, names := d.extracted.hotel.names,
               area := d.extracted.hotel.area, star_rating := d.extracted.hotel.star_rating,
               access := d.extracted.hotel.access, amenities := d.extracted.hotel.amenities,
               room_type := d.extracted.hotel.room_type,
               bed_width_cm := d.extracted.hotel.bed_width_cm },
    price := { per_person := d.extracted.price.per_person,
               total := d.extracted.price.total,
               currency := d.extracted.price.currency,
               deposit := d.extracted.price.deposit,
               seats_available := d.extracted.price.seats_available,
               min_travelers := d.extracted.price.min_travelers },
    dates := { duration_days := d.extracted.dates.duration_days,
               duration_nights := d.extracted.dates.duration_nights,
               departure_date := d.extracted.dates.departure_date,
               return_date := d.extracted.dates.return_date,
               year := d.extracted.dates.year,
               departure_month := d.extracted.dates.departure_month,
               departure_day := d.extracted.dates.departure_day },
    inclusions := d.extracted.inclusions,
    date_pricing :=
      if d.extracted.date_pricing.isEmpty then []
      else d.extracted.date_pricing.map
        (fun kv => (kv.1, DatePricing.fromLegacyEntry kv.1 kv.2)),
    itinerary :=
      if (d.extracted.itinerary.getD []).isEmpty then []
      else (d.extracted.itinerary.getD []).map
        (fun day => ItineraryDay.mk day.day day.content day.is_free day.is_guided) }

/-- Helper: re-serializing one reconstructed legacy `date_pricing` value
gives back the stored value when the availability was non-empty. -/
theorem dpLegacyEntry_roundtrip (k : String) (dp : DatePricing)
    (ha : dp.availability ≠ "") :
    (DatePricing.fromLegacyEntry k dp.toLegacyDict).toLegacyDict = dp.toLegacyDict := by
  cases dp with
  | mk date price avail seats notes =>
    simp only at ha
    by_cases hn : notes = "" <;>
      simp [DatePricing.toLegacyDict, DatePricing.fromLegacyEntry, ha, hn]

/-- Helper: the legacy `date_pricing` mapping is reproduced exactly by
serialize → deserialize → serialize when every availability is non-empty. -/
theorem dpLegacyList_roundtrip (l : List (String × DatePricing))
    (ha : ∀ p ∈ l, (p.2).availability ≠ "") :
    ((if (l.map (fun kv => (kv.1, kv.2.toLegacyDict))).isEmpty then []
      else (l.map (fun kv => (kv.1, kv.2.toLegacyDict))).map
        (fun kv => (kv.1, DatePricing.fromLegacyEntry kv.1 kv.2))).map
      (fun kv => (kv.1, kv.2.toLegacyDict)))
    = l.map (fun kv => (kv.1, kv.2.toLegacyDict)) := by
  cases l with
  | nil => rfl
  | cons hd tl =>
    simp only [List.map_cons, List.isEmpty_cons, if_neg Bool.false_ne_true]
    have : ∀ (m : List (String × DatePricing)),
        (∀ p ∈ m, (p.2).availability ≠ "") →
        ((m.map (fun kv => (kv.1, kv.2.toLegacyDict))).map
          (fun kv => (kv.1, DatePricing.fromLegacyEntry kv.1 kv.2))).map
          (fun kv => (kv.1, kv.2.toLegacyDict))
        = m.map (fun kv => (kv.1, kv.2.toLegacyDict)) := by
      intro m hm
      induction m with
      | nil => rfl
      | cons a t ih =>
        have haa := hm a (List.mem_cons_self a t)
        simp only [List.map_cons, List.cons.injEq]
        exact ⟨by simp [dpLegacyEntry_roundtrip a.1 a.2 haa],
          ih (fun p hp => hm p (List.mem_cons_of_mem a hp))⟩
    simpa using this (hd :: tl) ha

/-- Helper: the legacy itinerary round-trips to the original list (each
stored day is a full `asdict`, and reconstruction is the identity). -/
theorem itinLegacy_roundtrip (l : List ItineraryDay) :
    (if ((if l.isEmpty then none else some l).getD []).isEmpty then []
     else ((if l.isEmpty then none else some l).getD []).map
       (fun day => ItineraryDay.mk day.day day.content day.is_free day.is_guided)) = l := by
  cases l with
  | nil => rfl
  | cons hd tl =>
    simp only [List.isEmpty_cons, if_neg Bool.false_ne_true, Option.getD_some]
    have : ∀ (m : List ItineraryDay),
        m.map (fun day => ItineraryDay.mk day.day day.content day.is_free day.is_guided) = m := by
      intro m
      induction m with
      | nil => rfl
      | cons a t ih => simp only [List.map_cons, ih]
    exact this (hd :: tl)

/-- Helper: reading `package_links` back through its presence encoding is
the identity. -/
theorem packageLinks_roundtrip (l : List PackageLink) :
    (if l.isEmpty then none else some l).getD [] = l := by
  cases l with
  | nil => rfl
  | cons hd tl => simp

/-- C4 (amended): serialize → deserialize → serialize through the legacy
shape reproduces the first serialization exactly — the round-trip law over
the fields present in both directions (`errors`/`warnings`/`success` and
the per-entry `date` key are not part of the legacy shape, and the
return/return_ rename is applied on both serializations) — provided every
`date_pricing` entry has a non-empty `availability`, as every value of its
documented domain (available/sold_out/limited/unknown) is.  (As literally
stated over all results the law fails: see the counterexample.) -/
theorem legacy_serialize_roundtrip (r : ScrapeResult)
    (ha : ∀ p ∈ r.date_pricing, (p.2).availability ≠ "") :
    ScrapeResult.to_legacy_dict (ScrapeResult.fromLegacyDict r.to_legacy_dict) =
      r.to_legacy_dict := by
  unfold ScrapeResult.to_legacy_dict ScrapeResult.fromLegacyDict
  simp only [FlightInfo.from_dict, FlightInfo.to_dict]
  have h1 := dpLegacyList_roundtrip r.date_pricing ha
  have h2 := itinLegacy_roundtrip r.itinerary
  have h3 := packageLinks_roundtrip r.package_links
  cases r with
  | mk sid url sa title pt fl ho pr da inc dp itin pl rt ee suc er wa =>
    simp only at h1 h2 h3 ⊢
    rw [h2, h3]
    congr 1
    congr 1

/-- A result whose one `date_pricing` entry has an empty availability:
the first legacy serialization drops the key, deserialization restores the
default "unknown", and the second serialization emits it. -/
def legacyCexResult : ScrapeResult :=
  { source_id := "s", url := "u",
    date_pricing := [("2026-02-13", { date := "2026-02-13", availability := "" })] }

/-- C4 counterexample: on `legacyCexResult` the legacy
serialize → deserialize → serialize chain does not reproduce the first
serialization. -/
theorem legacy_serialize_roundtrip_counterexample :
    ScrapeResult.to_legacy_dict (ScrapeResult.fromLegacyDict legacyCexResult.to_legacy_dict)
      ≠ legacyCexResult.to_legacy_dict := by decide

/-- A fully-featured result (flights, hotel, prices, date pricing,
itinerary, links) with well-formed availabilities. -/
def roundtripSample : ScrapeResult :=
  { source_id := "besttour",
    url := "https://www.besttour.com.tw/itinerary/ABC123",
    scraped_at := "2026-02-06T00:00:00",
    title := "Tokyo 5 days",
    package_type := "group",
    flight := { outbound := { flight_number := "MM620", departure_code := "TPE",
                              arrival_code := "NRT", airline := "Peach" } },
    hotel := { name := "Shinjuku Hotel", star_rating := some 4 },
    price := { per_person := some 35900 },
    dates := { departure_date := "2026-02-13", duration_days := some 5 },
    inclusions := ["flight", "hotel"],
    date_pricing := [("2026-02-13",
      { date := "2026-02-13", price := some 35900, availability := "available" })],
    itinerary := [{ day := 1, content := "Arrival", is_guided := true }],
    package_links := [[("url", "https://www.besttour.com.tw/itinerary/DEF456"),
                       ("code", "DEF456"), ("title", "Osaka 5 days")]] }

/-- C4 witness: the amended round-trip law applied to `roundtripSample`. -/
theorem legacy_serialize_roundtrip_witness :
    ScrapeResult.to_legacy_dict (ScrapeResult.fromLegacyDict roundtripSample.to_legacy_dict) =
      roundtripSample.to_legacy_dict :=
  legacy_serialize_roundtrip roundtripSample (by decide)

end Travel

/-! ## base.py: navigation retry -/

namespace Travel

/-- Outcome record of one `navigate_with_retry` run: the returned boolean,
the `page.goto` calls issued as (0-based attempt, strategy) pairs in
order, and the backoff sleeps performed as (0-based attempt that just
failed, seconds slept). -/
structure NavRun where
  success : Bool
  calls : List (Nat × String)
  sleeps : List (Nat × ℚ)
deriving DecidableEq, Repr

/-- The retry loop of base.py `navigate_with_retry`, driven by an oracle
`goto attempt strategy` (`true`: the awaited `page.goto` returns; `false`:
it raises — the only exception source, and it is caught).  Per attempt:
try "networkidle"; on failure `continue` to "domcontentloaded"; if that
also fails, sleep `backoff_base ** (attempt + 1)` seconds and move to the
next attempt when `attempt < max_retries - 1`, else return `False`.
`fuel` is the number of loop iterations left (`max_retries - attempt`),
making the `for attempt in range(max_retries)` loop structural. -/
def navGo (goto : Nat → String → Bool) (backoff_base : ℚ) (max_retries : Nat) :
    Nat → Nat → NavRun
  | 0, _ => ⟨false, [], []⟩
  | fuel + 1, attempt =>
    if goto attempt "networkidle" then
      ⟨true, [(attempt, "networkidle")], []⟩
    else if goto attempt "domcontentloaded" then
      ⟨true, [(attempt, "networkidle"), (attempt, "domcontentloaded")], []⟩
    else if attempt < max_retries - 1 then
      let rest := navGo goto backoff_base max_retries fuel (attempt + 1)
      ⟨rest.success,
       (attempt, "networkidle") :: (attempt, "domcontentloaded") :: rest.calls,
       (attempt, backoff_base ^ (attempt + 1)) :: rest.sleeps⟩
    else
      ⟨false, [(attempt, "networkidle"), (attempt, "domcontentloaded")], []⟩

/-- base.py `navigate_with_retry` (source defaults: `max_retries = 3`,
`backoff_base = 2.0`, i.e. sleeps of 2 s then 4 s between the three
attempts): run the loop from attempt 0. -/
def navigate_with_retry (goto : Nat → String → Bool) (max_retries : Nat := 3)
    (backoff_base : ℚ := 2) : NavRun :=
  navGo goto backoff_base max_retries max_retries 0

/-- Helper: the loop invariant of `navGo`, for `fuel` iterations left
starting at `attempt` with `attempt + fuel = max_retries`. -/
theorem navGo_spec (goto : Nat → String → Bool) (base : ℚ) (maxR : Nat) :
    ∀ fuel attempt, attempt + fuel = maxR →
      ((navGo goto base maxR fuel attempt).success = true ↔
        ∃ i, attempt ≤ i ∧ i < maxR ∧
          (goto i "networkidle" = true ∨ goto i "domcontentloaded" = true))
      ∧ (∀ i s, (i, s) ∈ (navGo goto base maxR fuel attempt).calls →
          attempt ≤ i ∧ i < maxR ∧ (s = "networkidle" ∨ s = "domcontentloaded"))
      ∧ (∀ i, (i, "domcontentloaded") ∈ (navGo goto base maxR fuel attempt).calls →
          goto i "networkidle" = false)
      ∧ (∀ i x, (i, x) ∈ (navGo goto base maxR fuel attempt).sleeps →
          x = base ^ (i + 1) ∧ i + 1 < maxR ∧
          goto i "networkidle" = false ∧ goto i "domcontentloaded" = false)
      ∧ ((navGo goto base maxR fuel attempt).success = false →
          ∀ i, attempt ≤ i → i < maxR →
            (i, "networkidle") ∈ (navGo goto base maxR fuel attempt).calls ∧
            (i, "domcontentloaded") ∈ (navGo goto base maxR fuel attempt).calls) := by
  intro fuel
  induction fuel with
  | zero =>
    intro attempt h
    simp only [navGo]
    refine ⟨?_, ?_, ?_, ?_, ?_⟩
    · simp only [Bool.false_eq_true, false_iff]
      rintro ⟨i, hle, hlt, -⟩
      omega
    · intro i s hmem; cases hmem
    · intro i hmem; cases hmem
    · intro i x hmem; cases hmem
    · intro _ i hle hlt; omega
  | succ fuel ih =>
    intro attempt h
    have hlt : attempt < maxR := by omega
    by_cases h1 : goto attempt "networkidle" = true
    · simp only [navGo, h1, if_true]
      refine ⟨?_, ?_, ?_, ?_, ?_⟩
      · simp only [true_iff]
        exact ⟨attempt, le_refl _, hlt, Or.inl h1⟩
      · intro i s hmem
        rcases List.mem_singleton.mp hmem with hp
        cases hp
        exact ⟨le_refl _, hlt, Or.inl rfl⟩
      · intro i hmem
        rcases List.mem_singleton.mp hmem with hp
        exact absurd (show "domcontentloaded" = "networkidle" from congrArg Prod.snd hp) (by decide)
      · intro i x hmem; cases hmem
      · intro hfalse; cases hfalse
    · have h1f : goto attempt "networkidle" = false := by
        cases hgn : goto attempt "networkidle" with
        | true => exact absurd hgn h1
        | false => rfl
      by_cases h2 : goto attempt "domcontentloaded" = true
      · simp only [navGo, h1f, Bool.false_eq_true, if_false, h2, if_true]
        refine ⟨?_, ?_, ?_, ?_, ?_⟩
        · simp only [true_iff]
          exact ⟨attempt, le_refl _, hlt, Or.inr h2⟩
        · intro i s hmem
          rcases List.mem_cons.mp hmem with hp | hp
          · cases hp; exact ⟨le_refl _, hlt, Or.inl rfl⟩
          · rcases List.mem_singleton.mp hp with hq
            cases hq
            exact ⟨le_refl _, hlt, Or.inr rfl⟩
        · intro i hmem
          rcases List.mem_cons.mp hmem with hp | hp
          · exact absurd (show "domcontentloaded" = "networkidle" from congrArg Prod.snd hp) (by decide)
          · rcases List.mem_singleton.mp hp with hq
            cases hq
            exact h1f
        · intro i x hmem; cases hmem
        · intro hfalse; cases hfalse
      · have h2f : goto attempt "domcontentloaded" = false := by
          cases hgn : goto attempt "domcontentloaded" with
          | true => exact absurd hgn h2
          | false => rfl
        by_cases h3 : attempt < maxR - 1
        · have ihs := ih (attempt + 1) (by omega)
          simp only [navGo, h1f, Bool.false_eq_true, if_false, h2f, h3, if_true]
          refine ⟨?_, ?_, ?_, ?_, ?_⟩
          · rw [ihs.1]
            constructor
            · rintro ⟨i, hle, hilt, hor⟩
              exact ⟨i, by omega, hilt, hor⟩
            · rintro ⟨i, hle, hilt, hor⟩
              refine ⟨i, ?_, hilt, hor⟩
              rcases Nat.eq_or_lt_of_le hle with rfl | hgt
              · rcases hor with hx | hx
                · exact absurd hx (by simp [h1f])
                · exact absurd hx (by simp [h2f])
              · omega
          · intro i s hmem
            rcases List.mem_cons.mp hmem with hp | hp
            · cases hp; exact ⟨le_refl _, hlt, Or.inl rfl⟩
            · rcases List.mem_cons.mp hp with hq | hq
              · cases hq; exact ⟨le_refl _, hlt, Or.inr rfl⟩
              · obtain ⟨ha, hb, hc⟩ := ihs.2.1 i s hq
                exact ⟨by omega, hb, hc⟩
          · intro i hmem
            rcases List.mem_cons.mp hmem with hp | hp
            · exact absurd (show "domcontentloaded" = "networkidle" from congrArg Prod.snd hp) (by decide)
            · rcases List.mem_cons.mp hp with hq | hq
              · cases hq; exact h1f
              · exact ihs.2.2.1 i hq
          · intro i x hmem
            rcases List.mem_cons.mp hmem with hp | hp
            · cases hp
              exact ⟨rfl, by omega, h1f, h2f⟩
            · exact ihs.2.2.2.1 i x hp
          · intro hfalse i hle hilt
            rcases Nat.eq_or_lt_of_le hle with rfl | hgt
            · exact ⟨List.mem_cons_self _ _,
                List.mem_cons_of_mem _ (List.mem_cons_self _ _)⟩
            · have := (ihs.2.2.2.2 hfalse i (by omega) hilt)
              exact ⟨List.mem_cons_of_mem _ (List.mem_cons_of_mem _ this.1),
                List.mem_cons_of_mem _ (List.mem_cons_of_mem _ this.2)⟩
        · have hattempt : attempt = maxR - 1 := by omega
          simp only [navGo, h1f, Bool.false_eq_true, if_false, h2f, h3]
          refine ⟨?_, ?_, ?_, ?_, ?_⟩
          · simp only [Bool.false_eq_true, false_iff]
            rintro ⟨i, hle, hilt, hor⟩
            have : i = attempt := by omega
            subst this
            rcases hor with hx | hx
            · exact absurd hx (by simp [h1f])
            · exact absurd hx (by simp [h2f])
          · intro i s hmem
            rcases List.mem_cons.mp hmem with hp | hp
            · cases hp; exact ⟨le_refl _, hlt, Or.inl rfl⟩
            · rcases List.mem_singleton.mp hp with hq
              cases hq
              exact ⟨le_refl _, hlt, Or.inr rfl⟩
          · intro i hmem
            rcases List.mem_cons.mp hmem with hp | hp
            · exact absurd (show "domcontentloaded" = "networkidle" from congrArg Prod.snd hp) (by decide)
            · rcases List.mem_singleton.mp hp with hq
              cases hq
              exact h1f
          · intro i x hmem; cases hmem
          · intro _ i hle hilt
            have : i = attempt := by omega
            subst this
            exact ⟨List.mem_cons_self _ _,
              List.mem_cons_of_mem _ (List.mem_cons_self _ _)⟩

/-- C6: `navigate_with_retry` is a total boolean-returning routine (every
`page.goto` exception is caught, so nothing escapes to the caller).  Its
run record shows: the returned boolean is true iff some strategy succeeds
within `max_retries` attempts (the first success returns immediately);
every issued call is one of the two strategies within the attempt bound;
the DOM-ready fallback is only tried after the fully-settled "networkidle"
strategy failed on the same attempt; each sleep between consecutive
attempts lasts `backoff_base ^ (attempt + 1)` seconds — the exponent is
the 1-based number of the attempt that just failed — and happens only when
both strategies of a non-final attempt failed; and on a `False` return
every attempt tried both strategies (all attempts exhausted).  Source
defaults: `max_retries = 3`, `backoff_base = 2.0`. -/
theorem navigate_with_retry_contract (goto : Nat → String → Bool)
    (max_retries : Nat) (backoff_base : ℚ) :
    ((navigate_with_retry goto max_retries backoff_base).success = true ↔
      ∃ i, i < max_retries ∧
        (goto i "networkidle" = true ∨ goto i "domcontentloaded" = true))
    ∧ (∀ i s, (i, s) ∈ (navigate_with_retry goto max_retries backoff_base).calls →
        i < max_retries ∧ (s = "networkidle" ∨ s = "domcontentloaded"))
    ∧ (∀ i, (i, "domcontentloaded") ∈ (navigate_with_retry goto max_retries backoff_base).calls →
        goto i "networkidle" = false)
    ∧ (∀ i x, (i, x) ∈ (navigate_with_retry goto max_retries backoff_base).sleeps →
        x = backoff_base ^ (i + 1) ∧ i + 1 < max_retries ∧
        goto i "networkidle" = false ∧ goto i "domcontentloaded" = false)
    ∧ ((navigate_with_retry goto max_retries backoff_base).success = false →
        ∀ i, i < max_retries →
          (i, "networkidle") ∈ (navigate_with_retry goto max_retries backoff_base).calls ∧
          (i, "domcontentloaded") ∈ (navigate_with_retry goto max_retries backoff_base).calls) := by
  have hs := navGo_spec goto backoff_base max_retries max_retries 0 (by omega)
  refine ⟨?_, ?_, ?_, hs.2.2.2.1, ?_⟩
  · rw [show navigate_with_retry goto max_retries backoff_base =
      navGo goto backoff_base max_retries max_retries 0 from rfl, hs.1]
    constructor
    · rintro ⟨i, -, hilt, hor⟩; exact ⟨i, hilt, hor⟩
    · rintro ⟨i, hilt, hor⟩; exact ⟨i, Nat.zero_le i, hilt, hor⟩
  · intro i s hmem
    obtain ⟨-, hb, hc⟩ := hs.2.1 i s hmem
    exact ⟨hb, hc⟩
  · exact hs.2.2.1
  · intro hfalse i hilt
    exact hs.2.2.2.2 hfalse i (Nat.zero_le i) hilt

end Travel

/-! ## base.py: the scrape orchestration and its step-6 auto-enrichment -/

namespace Travel

/-- A Python attribute value as the enrichment code handles them:
`None`, a bool, an int, or a string. -/
inductive PyVal where
  | noneV
  | boolV (b : Bool)
  | intV (n : Int)
  | strV (s : String)
deriving DecidableEq, Repr

/-- Python truthiness of an attribute value (`not x` tests). -/
def pyFalsy : PyVal → Bool
  | .noneV => true
  | .boolV b => !b
  | .intV n => n = 0
  | .strV s => s = ""

/-- The dynamically assigned attributes of one Python object (those not
declared as dataclass fields). -/
def lookupAttr : List (String × PyVal) → String → Option PyVal
  | [], _ => none
  | kv :: rest, a => if kv.1 = a then some kv.2 else lookupAttr rest a

/-- Reading an object attribute that is not a declared dataclass field:
Python raises `AttributeError` unless the attribute was previously
assigned on that very object.  `ScrapeResult` declares no
`baggage_included`/`baggage_kg` field and `HotelInfo` no `area_type`
field (schema.py), so those reads go through this path. -/
def getDynAttr (className : String) (assigned : List (String × PyVal))
    (attr : String) : Except String PyVal :=
  match lookupAttr assigned attr with
  | some v => .ok v
  | none => .error ("AttributeError: '" ++ className ++
      "' object has no attribute '" ++ attr ++ "'")

/-- base.py `_infer_region`: best-effort region from URL keywords
(`osaka`/`kyoto` fold into `kansai`). -/
def inferRegion (url : String) : String :=
  let u := url.toLower
  if reSearch "kansai" u then "kansai"
  else if reSearch "osaka" u then "kansai"
  else if reSearch "kyoto" u then "kansai"
  else if reSearch "tokyo" u then "tokyo"
  else if reSearch "nagoya" u then "nagoya"
  else ""

/-- Step 6 of `BaseScraper.scrape` (base.py lines 483-496), the
cross-cutting auto-enrichment.  `extractBaggage` abstracts
`extract_baggage_info`'s fixed regex table (returning the `included` and
`kg` values) and `detectArea` abstracts `detect_hotel_area`'s data-driven
keyword table; `resultAttrs` / `hotelAttrs` are the dynamically assigned
attributes of the result and its hotel.  The first conjunct of
`if result.baggage_included is None and result.raw_text:` reads the
undeclared attribute `baggage_included`, and the area branch reads the
undeclared `result.hotel.area_type`. -/
def autoEnrich (extractBaggage : String → PyVal × PyVal)
    (detectArea : String → String → String)
    (r : ScrapeResult) (url : String)
    (resultAttrs hotelAttrs : List (String × PyVal)) :
    Except String (ScrapeResult × List (String × PyVal) × List (String × PyVal)) := do
  let bag ← getDynAttr "ScrapeResult" resultAttrs "baggage_included"
  let resultAttrs2 :=
    if bag = PyVal.noneV ∧ r.raw_text ≠ "" then
      let bi := extractBaggage r.raw_text
      ("baggage_kg", bi.2) :: ("baggage_included", bi.1) :: resultAttrs
    else resultAttrs
  if r.hotel.is_populated then
    let area ← getDynAttr "HotelInfo" hotelAttrs "area_type"
    if pyFalsy area then
      let region := inferRegion url
      if region ≠ "" then
        let hotelName := pyOrStr r.hotel.name
          (match r.hotel.names with | [] => "" | n :: _ => n)
        return (r, resultAttrs2,
          ("area_type", PyVal.strV (detectArea hotelName region)) :: hotelAttrs)
      else
        return (r, resultAttrs2, hotelAttrs)
    else
      return (r, resultAttrs2, hotelAttrs)
  else
    return (r, resultAttrs2, hotelAttrs)

/-- The browser-visible outcomes of one scrape run: `navSuccess` is
`navigate_with_retry`'s boolean; `title` is `page.title()` (`none` = it
raised and was swallowed); `raw_text` is `safe_extract_text`'s result
(empty string on failure); `elements` and `links` are the generic-element
and package-link extractions (each already recovered per-selector). -/
structure PageOracle where
  navSuccess : Bool
  title : Option String
  raw_text : String
  elements : List (String × List String)
  links : List PackageLink
deriving DecidableEq, Repr

/-- base.py `BaseScraper.scrape` after a cache miss (steps 2-7), driven by
the vendor's pure `parse_raw_text` and the browser oracle.
`Except.error` is an exception escaping `scrape` to its caller.  The
fresh `ScrapeResult` constructed at the top carries no dynamically
assigned attributes, and no code in the repository ever assigns
`baggage_included` on a `ScrapeResult` or `area_type` on a `HotelInfo`,
so both attribute stores are empty when step 6 runs.  On navigation
failure the error is recorded in `errors` and the result returned before
any caching; on the success path the write-through to the cache follows
step 6. -/
def scrapeAfterCacheMiss (parseRawText : String → String → ScrapeResult)
    (extractBaggage : String → PyVal × PyVal)
    (detectArea : String → String → String)
    (page : PageOracle) (fs : CacheFs) (extras : List (String × String))
    (source_id url scraped_at : String) :
    Except String (ScrapeResult × CacheFs) := do
  let result : ScrapeResult :=
    { source_id := source_id, url := url, scraped_at := scraped_at }
  if !page.navSuccess then
    return ({ result with
                success := false,
                errors := result.errors ++
                  ["Failed to navigate to " ++ url ++ " after retries"] }, fs)
  let result := match page.title with
    | some t => { result with title := t }
    | none => result
  let result := { result with
                  raw_text := page.raw_text,
                  extracted_elements := page.elements,
                  package_links := page.links }
  let parsed := parseRawText result.raw_text url
  let result := { result with
                  flight := parsed.flight, hotel := parsed.hotel,
                  price := parsed.price, dates := parsed.dates,
                  inclusions := parsed.inclusions,
                  date_pricing := parsed.date_pricing,
                  itinerary := parsed.itinerary }
  let enriched ← autoEnrich extractBaggage detectArea result url [] []
  return (enriched.1, cacheSet fs enriched.1 extras)

/-- C1 (code bug): the claim — and spec §4.4/§7 — says `scrape` recovers
browser errors into the result and, after a successful navigation,
completes step 6's auto-enrichment and returns a `ScrapeResult`, raising
only for an unknown source id.  The code cannot: step 6 reads
`result.baggage_included`, which `ScrapeResult` does not declare and
nothing ever assigns, so every scrape whose navigation succeeds raises
`AttributeError` to the caller (the navigation-failure path, by contrast,
does return a result with the error recorded, as the claim describes). -/
theorem scrape_step6_raises_attribute_error
    (parseRawText : String → String → ScrapeResult)
    (extractBaggage : String → PyVal × PyVal)
    (detectArea : String → String → String)
    (title : Option String) (raw_text : String)
    (elements : List (String × List String)) (links : List PackageLink)
    (fs : CacheFs) (extras : List (String × String))
    (source_id url scraped_at : String) :
    scrapeAfterCacheMiss parseRawText extractBaggage detectArea
        ⟨true, title, raw_text, elements, links⟩ fs extras source_id url scraped_at =
      .error "AttributeError: 'ScrapeResult' object has no attribute 'baggage_included'"
    ∧ scrapeAfterCacheMiss parseRawText extractBaggage detectArea
        ⟨false, title, raw_text, elements, links⟩ fs extras source_id url scraped_at =
      .ok ({ source_id := source_id, url := url, scraped_at := scraped_at,
             success := false,
             errors := ["Failed to navigate to " ++ url ++ " after retries"] }, fs) := by
  constructor
  · cases title <;> rfl
  · rfl

end Travel
